import Mathlib

set_option maxHeartbeats 1000000
set_option maxRecDepth 100000

/-!
Verification development for the abctl local-environment lifecycle manager.

The Go source under verification consists of:
- the docker runtime connector (`newWithOptions`, `createAndPing` in
  `internal/docker/docker.go`),
- the uninstall orchestration (`UninstallCmd.Run` in package `local`),
- the Java log scanner (only its test is in the source tree; the scanner is
  modelled from the spec),
- the k8s provider profiles (only their test is in the source tree; the
  provider values are modelled from the spec and the expectations of
  `provider_test.go`).

Go error values are modelled by the inductive `GoErr`: `GoErr.sentinel` for
package-level sentinel errors such as `abctl.ErrDocker`, `GoErr.mk` for
`fmt.Errorf` without a `%w` verb, and `GoErr.wrap` for `fmt.Errorf` with a
single `%w` verb wrapping an inner error.
-/

inductive GoErr where
  | sentinel (name : String)
  | mk (msg : String)
  | wrap (msg : String) (inner : GoErr)
deriving DecidableEq, Repr

/-- The `abctl.ErrDocker` sentinel error. -/
def ErrDocker : GoErr := GoErr.sentinel "ErrDocker"

/-- Model of `errors.Is`: does the error equal the target, or wrap an error
that does (walking the single-`%w` chain)? -/
def GoErr.is : GoErr → GoErr → Bool
  | e, target =>
    if e = target then true
    else match e with
      | .wrap _ inner => inner.is target
      | _ => false

/-- One entry of the JSON array printed by `docker context inspect`: the model
keeps only the `Endpoints.Docker.Host` field, the sole field the Go code
reads. -/
structure CtxEntry where
  host : String
deriving DecidableEq, Repr

/-- Outcome of the `docker context inspect` step in `newWithOptions`: `none`
models the command failing or its output failing to unmarshal; `some data`
models a successful run that unmarshalled to `data`. The Go guard accepts the
first entry only when the array is non-empty and its host string is
non-empty. -/
def contextHost (inspect : Option (List CtxEntry)) : Option String :=
  match inspect with
  | none => none
  | some data =>
    match data with
    | [] => none
    | e :: _ => if e.host = "" then none else some e.host

/-- The candidate docker-host list built by `newWithOptions`: the current
context endpoint (when usable) first, then the platform fallbacks selected by
the `goos` switch (`darwin`, `windows`, default). `userHome` stands for
`paths.UserHome`. -/
def potentialHosts (inspect : Option (List CtxEntry)) (goos userHome : String) :
    List String :=
  let fromCtx : List String :=
    match contextHost inspect with
    | some h => [h]
    | none => []
  let fallbacks : List String :=
    if goos = "darwin" then
      ["unix:///var/run/docker.sock",
       "unix://" ++ userHome ++ "/.docker/run/docker.sock"]
    else if goos = "windows" then
      ["npipe:////./pipe/docker_engine"]
    else
      ["unix:///var/run/docker.sock",
       "unix://" ++ userHome ++ "/.docker/desktop/docker-cli.sock"]
  fromCtx ++ fallbacks

/-- The docker client as far as the probing loop observes it: the host the
loop bound it to via `client.WithHost`. -/
structure ClientModel where
  host : String
deriving DecidableEq, Repr

/-- The `Docker` wrapper type holding the connected client. -/
structure Docker where
  client : ClientModel
deriving DecidableEq, Repr

/-- Behaviour of one candidate host as seen by `createAndPing`: an optional
client-construction error (`newPing` failing) and an optional ping error
(consulted only when construction succeeds). This models the injected
`newPing` test double together with the live daemon state. -/
structure HostOutcome where
  newErr : Option GoErr
  pingErr : Option GoErr
deriving DecidableEq, Repr

/-- Model of `createAndPing`: construct a client bound to `host` (failures
wrapped as unable to create docker client), then ping it (failures wrapped as
unable to ping docker client); on success return the client. -/
def createAndPing (host : String) (o : HostOutcome) : Except GoErr ClientModel :=
  match o.newErr with
  | some e => .error (GoErr.wrap "unable to create docker client" e)
  | none =>
    match o.pingErr with
    | some e => .error (GoErr.wrap "unable to ping docker client" e)
    | none => .ok { host := host }

/-- Events observable from the probing loop of `newWithOptions`: an attempt at
a host, and the `pterm.Debug` log emitted when that attempt fails. -/
inductive ProbeEvent where
  | attempted (host : String)
  | debugLogged (host : String) (e : GoErr)
deriving DecidableEq, Repr

/-- The probing loop of `newWithOptions` over an explicit candidate list:
returns the trace of probe events together with either the first successfully
pinged client or, when every candidate fails, the error
`fmt.Errorf("%w: unable to create docker client", abctl.ErrDocker)` — which
wraps only the `ErrDocker` sentinel. -/
def probeHosts (outcomes : String → HostOutcome) :
    List String → List ProbeEvent × Except GoErr Docker
  | [] => ([], .error (GoErr.wrap "unable to create docker client" ErrDocker))
  | h :: rest =>
    match createAndPing h (outcomes h) with
    | .error e =>
      (.attempted h :: .debugLogged h e :: (probeHosts outcomes rest).1,
       (probeHosts outcomes rest).2)
    | .ok cli => ([.attempted h], .ok { client := cli })

/-- Full model of `newWithOptions`: build the candidate list, then probe it in
order. -/
def newWithOptions (inspect : Option (List CtxEntry)) (goos userHome : String)
    (outcomes : String → HostOutcome) : List ProbeEvent × Except GoErr Docker :=
  probeHosts outcomes (potentialHosts inspect goos userHome)

/-- The error produced by a failing `createAndPing` at `host` under
`outcomes`; `none` when the attempt succeeds. -/
def createAndPingErr (outcomes : String → HostOutcome) (host : String) :
    Option GoErr :=
  match createAndPing host (outcomes host) with
  | .error e => some e
  | .ok _ => none

/-- A host fails under `outcomes` when `createAndPing` returns an error. -/
def hostFails (outcomes : String → HostOutcome) (host : String) : Bool :=
  (createAndPingErr outcomes host).isSome

/-- The probe events contributed by one candidate host: the attempt, followed
by the debug log of its error when the attempt fails. -/
def failEvents (outcomes : String → HostOutcome) (h : String) :
    List ProbeEvent :=
  match createAndPing h (outcomes h) with
  | .error e => [.attempted h, .debugLogged h e]
  | .ok _ => [.attempted h]

/-- The k8s Provider record: named configuration for one local cluster.
Modelled from the spec (the provider source file is absent from the tree;
`provider_test.go` fixes the field set and the canonical values). Field names
follow the Go struct: `Name`, `ClusterName`, `Context`, `Kubeconfig`. -/
structure Provider where
  Name : String
  ClusterName : String
  Context : String
  Kubeconfig : String
deriving DecidableEq, Repr

/-- The `UninstallCmd` flags: `Persisted` requests removal of persisted
data. -/
structure UninstallCmd where
  Persisted : Bool
deriving DecidableEq, Repr

/-- Outcomes of the external collaborators consulted by `UninstallCmd.Run`,
one per call site: the `dockerInstalled` check, `provider.Cluster`,
`cluster.Exists`, `service.NewManager`, `svcMgr.Uninstall`, and
`cluster.Delete`. Each `Option GoErr` is `none` on success. -/
structure UninstallEnv where
  dockerInstalledErr : Option GoErr
  clusterErr : Option GoErr
  clusterExists : Bool
  managerErr : Option GoErr
  uninstallErr : Option GoErr
  deleteErr : Option GoErr
deriving DecidableEq, Repr

/-- Observable actions of `UninstallCmd.Run`, in program order: span lifecycle
(`trace.NewSpan`, `span.SetAttributes`, the deferred `span.End`), the
`dockerInstalled` check, entry into `telClient.Wrap`, the cluster lookup and
existence check, deployment-manager construction and uninstall, warnings
logged via `pterm.Warning`, and the cluster deletion. -/
inductive UAction where
  | spanStart (name : String)
  | spanSetAttr (key : String) (value : Bool)
  | dockerChecked
  | wrapStart (op : String)
  | clusterLookup
  | existsCheck
  | managerInit
  | managerUninstall (persisted : Bool)
  | warned (msg : String)
  | clusterDelete
  | spanEnd
deriving DecidableEq, Repr

/-- The closure passed to `telClient.Wrap` inside `UninstallCmd.Run`: look up
the cluster (propagating failure), return success at once when the cluster
does not exist, otherwise construct the deployment manager (construction
failure logged as a warning and tolerated), run its uninstall when constructed
(failure logged as a warning and tolerated), then delete the cluster, turning
a deletion failure into the error
`fmt.Errorf("unable to uninstall cluster %s", provider.ClusterName)`. -/
def uninstallWrapBody (u : UninstallCmd) (p : Provider) (env : UninstallEnv) :
    List UAction × Option GoErr :=
  match env.clusterErr with
  | some e => ([.clusterLookup], some e)
  | none =>
    if !env.clusterExists then
      ([.clusterLookup, .existsCheck], none)
    else
      let mgrEvs : List UAction :=
        match env.managerErr with
        | some _ =>
          [.managerInit, .warned "Failed to initialize local command"]
        | none =>
          match env.uninstallErr with
          | some _ =>
            [.managerInit, .managerUninstall u.Persisted,
             .warned "unable to complete uninstall",
             .warned "will still attempt to uninstall the cluster"]
          | none => [.managerInit, .managerUninstall u.Persisted]
      match env.deleteErr with
      | some _ =>
        ([.clusterLookup, .existsCheck] ++ mgrEvs ++ [.clusterDelete],
         some (GoErr.mk ("unable to uninstall cluster " ++ p.ClusterName)))
      | none =>
        ([.clusterLookup, .existsCheck] ++ mgrEvs ++ [.clusterDelete], none)

/-- Model of `UninstallCmd.Run`: open the trace span named local uninstall and
set its persisted attribute, check the docker installation (a failure returns
`fmt.Errorf("unable to determine docker installation status: %w", err)`
at once), then run the uninstall body inside `telClient.Wrap` — modelled,
per the telemetry contract, as running the closure and passing its error
through. The deferred `span.End` closes the span on every exit path. -/
def UninstallCmd.run (u : UninstallCmd) (p : Provider) (env : UninstallEnv) :
    List UAction × Option GoErr :=
  let pre : List UAction :=
    [.spanStart "local uninstall", .spanSetAttr "persisted" u.Persisted,
     .dockerChecked]
  match env.dockerInstalledErr with
  | some e =>
    (pre ++ [.spanEnd],
     some (GoErr.wrap "unable to determine docker installation status" e))
  | none =>
    (pre ++ [.wrapStart "uninstall"] ++ (uninstallWrapBody u p env).1 ++
       [.spanEnd],
     (uninstallWrapBody u p env).2)

/-- JSON values, as far as the log-scanner model needs them. -/
inductive Json where
  | null
  | jbool (b : Bool)
  | num (n : Int)
  | str (s : String)
  | arr (elems : List Json)
  | obj (fields : List (String × Json))

/-- Whitespace recognised by the JSON parser model. -/
def isWs (c : Char) : Bool :=
  c = ' ' || c = '\t' || c = '\n' || c = '\r'

/-- Drop leading JSON whitespace. -/
def skipWs : List Char → List Char
  | [] => []
  | c :: rest => if isWs c then skipWs rest else c :: rest

/-- Parse the body of a JSON string literal (the opening quote already
consumed), handling the common escapes; returns the decoded characters and
the remainder after the closing quote. -/
def parseStrChars : List Char → List Char → Option (List Char × List Char)
  | [], _ => none
  | '"' :: rest, acc => some (acc.reverse, rest)
  | '\\' :: c :: rest, acc =>
    let e : Option Char :=
      if c = '"' then some '"'
      else if c = '\\' then some '\\'
      else if c = '/' then some '/'
      else if c = 'n' then some '\n'
      else if c = 't' then some '\t'
      else if c = 'r' then some '\r'
      else none
    match e with
    | some ch => parseStrChars rest (ch :: acc)
    | none => none
  | c :: rest, acc => parseStrChars rest (c :: acc)

/-- Parse a JSON integer literal (an optional minus sign and digits). The
model covers integer literals only, which suffices for the structured log
lines the scanner claims are about. -/
def parseNum (cs : List Char) : Option (Json × List Char) :=
  let (neg, cs1) :=
    match cs with
    | '-' :: rest => (true, rest)
    | _ => (false, cs)
  let ds := cs1.takeWhile Char.isDigit
  let rest := cs1.dropWhile Char.isDigit
  if ds.isEmpty then none
  else
    let n : Int :=
      Int.ofNat (ds.foldl (fun acc c => acc * 10 + (c.toNat - 48)) 0)
    some (.num (if neg then -n else n), rest)

mutual

/-- Parse one JSON value; `fuel` bounds the nesting depth. -/
def parseVal : Nat → List Char → Option (Json × List Char)
  | 0, _ => none
  | fuel + 1, cs =>
    match skipWs cs with
    | [] => none
    | c :: rest =>
      if c = '\x7b' then parseObjFields fuel rest []
      else if c = '[' then parseArrElems fuel rest []
      else if c = '"' then
        match parseStrChars rest [] with
        | some (s, r) => some (.str (String.mk s), r)
        | none => none
      else if c = 'n' then
        match rest with
        | 'u' :: 'l' :: 'l' :: r => some (.null, r)
        | _ => none
      else if c = 't' then
        match rest with
        | 'r' :: 'u' :: 'e' :: r => some (.jbool true, r)
        | _ => none
      else if c = 'f' then
        match rest with
        | 'a' :: 'l' :: 's' :: 'e' :: r => some (.jbool false, r)
        | _ => none
      else parseNum (c :: rest)

/-- Parse the members of a JSON object (the opening brace already
consumed). -/
def parseObjFields : Nat → List Char → List (String × Json) →
    Option (Json × List Char)
  | 0, _, _ => none
  | fuel + 1, cs, acc =>
    match skipWs cs with
    | '\x7d' :: rest => some (.obj acc.reverse, rest)
    | '"' :: rest =>
      match parseStrChars rest [] with
      | none => none
      | some (k, r1) =>
        match skipWs r1 with
        | ':' :: r2 =>
          match parseVal fuel r2 with
          | none => none
          | some (v, r3) =>
            match skipWs r3 with
            | ',' :: r4 => parseObjFields fuel r4 ((String.mk k, v) :: acc)
            | '\x7d' :: r4 => some (.obj ((String.mk k, v) :: acc).reverse, r4)
            | _ => none
        | _ => none
    | _ => none

/-- Parse the elements of a JSON array (the opening bracket already
consumed). -/
def parseArrElems : Nat → List Char → List Json → Option (Json × List Char)
  | 0, _, _ => none
  | fuel + 1, cs, acc =>
    match skipWs cs with
    | ']' :: rest => some (.arr acc.reverse, rest)
    | _ =>
      match parseVal fuel cs with
      | none => none
      | some (v, r1) =>
        match skipWs r1 with
        | ',' :: r2 => parseArrElems fuel r2 (v :: acc)
        | ']' :: r2 => some (.arr (v :: acc).reverse, r2)
        | _ => none

end

/-- Parse a whole string as one JSON value with nothing but whitespace after
it. -/
def parseJson (s : String) : Option Json :=
  match parseVal (s.length + 1) s.data with
  | some (v, rest) => if (skipWs rest).isEmpty then some v else none
  | none => none

/-- Read a string-valued field out of a parsed JSON object; a missing or
non-string field yields the empty string, matching the zero value left by the
structured decode. -/
def getStrField (fields : List (String × Json)) (name : String) : String :=
  match fields.lookup name with
  | some (.str s) => s
  | _ => ""

/-- One scanned log record: a level (possibly empty) and a message. -/
structure JavaLogLine where
  Level : String
  Message : String
deriving DecidableEq, Repr

/-- Modelled from the spec: the log-scanner source is absent from the tree
(only `TestJavaLogScanner` is present). Per line, attempt to parse the line
as a structured record; on success surface the `level` and `message` fields
verbatim, and on failure treat the entire raw line as the message with an
empty level. -/
def parseJavaLogLine (line : String) : JavaLogLine :=
  match parseJson line with
  | some (.obj fields) =>
    { Level := getStrField fields "level", Message := getStrField fields "message" }
  | _ => { Level := "", Message := line }

/-- Modelled from the spec: the pull-style scanner state. `remaining` is the
unread portion of the line stream, `Line` the most recently scanned record,
and `readErr` the underlying read failure surfaced by `Err` (never set by an
unparsable line). -/
structure LogScanner where
  remaining : List String
  Line : JavaLogLine
  readErr : Option GoErr
deriving DecidableEq, Repr

/-- Modelled from the spec: `NewLogScanner` wraps a stream of lines. -/
def NewLogScanner (lines : List String) : LogScanner :=
  { remaining := lines, Line := { Level := "", Message := "" }, readErr := none }

/-- Modelled from the spec: `Scan` advances to the next line, classifying it
into `Line`; it returns false at the end of input. -/
def LogScanner.scan (s : LogScanner) : Bool × LogScanner :=
  match s.remaining with
  | [] => (false, s)
  | l :: rest => (true, { s with remaining := rest, Line := parseJavaLogLine l })

/-- Modelled from the spec: `Err` reports only underlying read failures. -/
def LogScanner.err (s : LogScanner) : Option GoErr :=
  s.readErr

/-- Split a character list at every slash. -/
def splitSlashAux : List Char → List Char → List String
  | [], acc => [String.mk acc.reverse]
  | c :: rest, acc =>
    if c = '/' then String.mk acc.reverse :: splitSlashAux rest []
    else splitSlashAux rest (c :: acc)

/-- Split a path into its slash-separated components. -/
def splitSlash (p : String) : List String :=
  splitSlashAux p.data []

/-- Model of `filepath.Base` for the slash-separated, non-empty paths used by
the providers: the final path component. -/
def filepathBase (p : String) : String :=
  match (splitSlash p).getLast? with
  | some b => b
  | none => p

/-- Model of `filepath.Dir` for the slash-separated paths used by the
providers: the path with its final component removed. -/
def filepathDir (p : String) : String :=
  String.intercalate "/" (splitSlash p).dropLast

/-- Modelled from the spec: the provider kind of the default profile. -/
def Kind : String := "kind"

/-- Modelled from the spec: the provider kind of the test profile. -/
def Test : String := "test"

/-- Modelled from the spec: `paths.UserHome`, the home directory of the user
running the tool. The provider and paths source files are absent from the
tree, so a representative concrete value stands in. -/
def UserHome : String := "/home/user"

/-- Modelled from the spec: `paths.FileKubeconfig`, the canonical kubeconfig
file name, fixed and identical across profiles. -/
def FileKubeconfig : String := "abctl.kubeconfig"

/-- Modelled from the spec: `paths.Kubeconfig`, the well-known user path of
the default kubeconfig — the canonical file name under a user-home
directory. -/
def Kubeconfig : String := UserHome ++ "/.airbyte/abctl/" ++ FileKubeconfig

/-- Modelled from the spec: the ephemeral per-run temporary directory used by
the test profile, distinct from the well-known user path. -/
def testTmpDir : String := "/tmp/abctl-test"

/-- Modelled from the spec: the default profile — fixed cluster and context
names with the kubeconfig at the well-known user path. The concrete names are
those asserted by `TestProvider_Defaults`. -/
def DefaultProvider : Provider :=
  { Name := Kind, ClusterName := "airbyte-abctl",
    Context := "kind-airbyte-abctl", Kubeconfig := Kubeconfig }

/-- Modelled from the spec: the test profile — cluster and context names
prefixed distinctly, kubeconfig under an ephemeral temporary directory with
the canonical file name. -/
def TestProvider : Provider :=
  { Name := Test, ClusterName := "test-airbyte-abctl",
    Context := "test-airbyte-abctl",
    Kubeconfig := testTmpDir ++ "/" ++ FileKubeconfig }

/-- A live cluster handle returned by `Provider.Cluster`. -/
structure ClusterHandle where
  name : String
deriving DecidableEq, Repr

/-- Whether a directory exists in the modelled filesystem (a list of existing
directories). -/
def dirExists (fs : List String) (d : String) : Bool :=
  fs.contains d

/-- Modelled from the spec: `Provider.Cluster(ctx)` — creates the named
cluster if absent or attaches to it, ensuring the kubeconfig directory exists
on disk; `backendOk` models whether the underlying cluster tool call
succeeds. The filesystem is an explicit list of existing directories; the
directory creation is the observable side effect the spec guarantees on
success. -/
def Provider.Cluster (p : Provider) (fs : List String) (backendOk : Bool) :
    (Option ClusterHandle × Option GoErr) × List String :=
  let fs2 := filepathDir p.Kubeconfig :: fs
  if backendOk then ((some { name := p.ClusterName }, none), fs2)
  else ((none, some (GoErr.mk "unable to create cluster")), fs2)

/-- A fixture environment in which every collaborator of the uninstall
sequence succeeds and the cluster exists. -/
def envAllOk : UninstallEnv :=
  { dockerInstalledErr := none, clusterErr := none, clusterExists := true,
    managerErr := none, uninstallErr := none, deleteErr := none }

/-- The unstructured first line of the log-scanner test input. -/
def logLine1 : String := "nonjsonline"

/-- The structured second line of the log-scanner test input, a WARN record
with nested caller object and null throwable. -/
def logLine2 : String :=
  "\x7b\"timestamp\":1734723317023,\"message\":\"Waiting for database to become available...\",\"level\":\"WARN\",\"logSource\":\"platform\",\"caller\":\x7b\"className\":\"io.airbyte.db.check.DatabaseAvailabilityCheck\",\"methodName\":\"check\",\"lineNumber\":38,\"threadName\":\"main\"\x7d,\"throwable\":null\x7d"

/-- A fixture outcome map under which every host fails its liveness probe
with a host-specific error. -/
def failingOutcomes : String → HostOutcome := fun h =>
  { newErr := none, pingErr := some (GoErr.mk ("ping failed at " ++ h)) }

/-- C1: in the uninstall sequence, whenever the cluster exists (runtime check
and cluster lookup having succeeded), cluster deletion is always attempted;
a deployment-manager construction failure or a failed manager uninstall is
logged as a warning and tolerated; and the overall result is success exactly
when cluster deletion succeeds. -/
theorem uninstall_tolerates_app_teardown_failure (u : UninstallCmd)
    (p : Provider) (env : UninstallEnv) (hd : env.dockerInstalledErr = none)
    (hc : env.clusterErr = none) (he : env.clusterExists = true) :
    UAction.clusterDelete ∈ (u.run p env).1 ∧
    (env.managerErr.isSome →
      UAction.warned "Failed to initialize local command" ∈ (u.run p env).1) ∧
    (env.managerErr = none → env.uninstallErr.isSome →
      UAction.warned "unable to complete uninstall" ∈ (u.run p env).1) ∧
    ((u.run p env).2 = none ↔ env.deleteErr = none) := by
  cases hm : env.managerErr <;> cases hu : env.uninstallErr <;>
    cases hdel : env.deleteErr <;>
    simp [UninstallCmd.run, uninstallWrapBody, hd, hc, he, hm, hu, hdel]

/-- C1 witness: at a concrete input where the manager uninstall fails but the
cluster deletion succeeds, deletion is attempted, the failure is warned
about, and the run succeeds. -/
theorem uninstall_tolerates_app_teardown_failure_witness :
    UAction.clusterDelete ∈
      (UninstallCmd.run { Persisted := false } DefaultProvider
        { envAllOk with uninstallErr := some (GoErr.mk "helm failed") }).1 ∧
    ((UninstallCmd.run { Persisted := false } DefaultProvider
        { envAllOk with uninstallErr := some (GoErr.mk "helm failed") }).2 =
      none ↔
      ({ envAllOk with
          uninstallErr := some (GoErr.mk "helm failed") } :
            UninstallEnv).deleteErr = none) := by
  have h := uninstall_tolerates_app_teardown_failure
    { Persisted := false } DefaultProvider
    { envAllOk with uninstallErr := some (GoErr.mk "helm failed") }
    rfl rfl rfl
  exact ⟨h.1, h.2.2.2⟩

/-- C2: in the uninstall sequence, when the cluster does not exist (runtime
check and cluster lookup having succeeded), the run returns success at once,
with no deployment-manager construction and no cluster deletion in its
trace. -/
theorem uninstall_absent_cluster_succeeds (u : UninstallCmd) (p : Provider)
    (env : UninstallEnv) (hd : env.dockerInstalledErr = none)
    (hc : env.clusterErr = none) (he : env.clusterExists = false) :
    u.run p env =
      ([UAction.spanStart "local uninstall",
        UAction.spanSetAttr "persisted" u.Persisted, UAction.dockerChecked,
        UAction.wrapStart "uninstall", UAction.clusterLookup,
        UAction.existsCheck, UAction.spanEnd], none) ∧
    UAction.managerInit ∉ (u.run p env).1 ∧
    UAction.clusterDelete ∉ (u.run p env).1 := by
  simp [UninstallCmd.run, uninstallWrapBody, hd, hc, he]

/-- C2 witness: at a concrete input whose cluster does not exist, the run
succeeds without manager construction or deletion. -/
theorem uninstall_absent_cluster_succeeds_witness :
    (UninstallCmd.run { Persisted := true } DefaultProvider
        { envAllOk with clusterExists := false }).2 = none ∧
    UAction.managerInit ∉
      (UninstallCmd.run { Persisted := true } DefaultProvider
        { envAllOk with clusterExists := false }).1 ∧
    UAction.clusterDelete ∉
      (UninstallCmd.run { Persisted := true } DefaultProvider
        { envAllOk with clusterExists := false }).1 := by
  have h := uninstall_absent_cluster_succeeds { Persisted := true }
    DefaultProvider { envAllOk with clusterExists := false } rfl rfl rfl
  exact ⟨by rw [h.1], h.2.1, h.2.2⟩

/-- C3: in the uninstall sequence, whenever cluster deletion fails on an
existing cluster, the run returns the error built by
`fmt.Errorf("unable to uninstall cluster %s", provider.ClusterName)` —
naming the involved cluster — regardless of the earlier manager-construction
and manager-uninstall outcomes. -/
theorem uninstall_delete_failure_fatal (u : UninstallCmd) (p : Provider)
    (env : UninstallEnv) (e : GoErr) (hd : env.dockerInstalledErr = none)
    (hc : env.clusterErr = none) (he : env.clusterExists = true)
    (hdel : env.deleteErr = some e) :
    (u.run p env).2 =
      some (GoErr.mk ("unable to uninstall cluster " ++ p.ClusterName)) := by
  cases hm : env.managerErr <;> cases hu : env.uninstallErr <;>
    simp [UninstallCmd.run, uninstallWrapBody, hd, hc, he, hm, hu, hdel]

/-- C3 witness: at a concrete input whose deletion fails (after a successful
application teardown), the run returns the cluster-uninstallation error
naming the default cluster. -/
theorem uninstall_delete_failure_fatal_witness :
    (UninstallCmd.run { Persisted := false } DefaultProvider
        { envAllOk with deleteErr := some (GoErr.mk "kind failed") }).2 =
      some (GoErr.mk ("unable to uninstall cluster " ++
        DefaultProvider.ClusterName)) :=
  uninstall_delete_failure_fatal { Persisted := false } DefaultProvider
    { envAllOk with deleteErr := some (GoErr.mk "kind failed") }
    (GoErr.mk "kind failed") rfl rfl rfl rfl

/-- C4 counterexample: on a windows run with no context endpoint, the single
candidate fails its ping with a concrete error; that last underlying failure
is recorded in the debug log, yet the returned error wraps only the
`ErrDocker` sentinel — `errors.Is` does not relate it to the last failure or
to its cause, refuting the claim that the exhaustion error wraps the last
underlying failure. -/
theorem exhaustion_error_ignores_last_failure :
    (newWithOptions none "windows" "/home/user" failingOutcomes).2 =
      .error (GoErr.wrap "unable to create docker client" ErrDocker) ∧
    ProbeEvent.debugLogged "npipe:////./pipe/docker_engine"
        (GoErr.wrap "unable to ping docker client"
          (GoErr.mk "ping failed at npipe:////./pipe/docker_engine")) ∈
      (newWithOptions none "windows" "/home/user" failingOutcomes).1 ∧
    (GoErr.wrap "unable to create docker client" ErrDocker).is
        (GoErr.wrap "unable to ping docker client"
          (GoErr.mk "ping failed at npipe:////./pipe/docker_engine")) =
      false ∧
    (GoErr.wrap "unable to create docker client" ErrDocker).is
        (GoErr.mk "ping failed at npipe:////./pipe/docker_engine") =
      false := by
  exact ⟨rfl, by decide, by decide, by decide⟩

/-- C4 (amended): when every candidate in the list fails, the probing loop
returns the error wrapping the `ErrDocker` sentinel with the message
"unable to create docker client" (the connector-unavailable class error); the
per-candidate failures are only logged at debug verbosity, not wrapped into
the returned error. -/
theorem exhaustion_returns_errDocker (outcomes : String → HostOutcome)
    (hosts : List String)
    (hall : ∀ h ∈ hosts, hostFails outcomes h = true) :
    (probeHosts outcomes hosts).2 =
      .error (GoErr.wrap "unable to create docker client" ErrDocker) := by
  induction hosts with
  | nil => rfl
  | cons h rest ih =>
    have hh := hall h (List.mem_cons_self h rest)
    cases hc : createAndPing h (outcomes h) with
    | error e =>
      simp [probeHosts, hc]
      exact ih fun x hx => hall x (List.mem_cons_of_mem h hx)
    | ok cli =>
      simp [hostFails, createAndPingErr, hc] at hh

/-- C4 witness: with both default unix-socket candidates failing, the loop
returns the `ErrDocker`-wrapping error. -/
theorem exhaustion_returns_errDocker_witness :
    (probeHosts failingOutcomes
        ["unix:///var/run/docker.sock",
         "unix:///home/user/.docker/desktop/docker-cli.sock"]).2 =
      .error (GoErr.wrap "unable to create docker client" ErrDocker) :=
  exhaustion_returns_errDocker failingOutcomes
    ["unix:///var/run/docker.sock",
     "unix:///home/user/.docker/desktop/docker-cli.sock"] (by decide)

/-- C5: when every candidate before `good` fails and `good` succeeds at both
client construction and ping, the probing loop returns the client bound to
`good`; its trace is exactly the attempts and debug logs of the failing
candidates followed by the attempt at `good`, so no candidate after `good`
is ever attempted. -/
theorem probe_first_success (outcomes : String → HostOutcome)
    (pre : List String) (good : String) (post : List String)
    (hfail : ∀ h ∈ pre, hostFails outcomes h = true)
    (hnew : (outcomes good).newErr = none)
    (hping : (outcomes good).pingErr = none) :
    probeHosts outcomes (pre ++ good :: post) =
      (pre.flatMap (failEvents outcomes) ++ [ProbeEvent.attempted good],
       .ok { client := { host := good } }) := by
  induction pre with
  | nil =>
    simp [probeHosts, createAndPing, hnew, hping, failEvents]
  | cons h rest ih =>
    have hh := hfail h (List.mem_cons_self h rest)
    cases hc : createAndPing h (outcomes h) with
    | error e =>
      have ih2 := ih fun x hx => hfail x (List.mem_cons_of_mem h hx)
      simp [probeHosts, hc, failEvents, ih2]
    | ok cli =>
      simp [hostFails, createAndPingErr, hc] at hh

/-- C5 witness: with the standard unix socket failing and the desktop socket
succeeding, the loop returns the client bound to the desktop socket having
attempted exactly the two candidates, never touching a third. -/
theorem probe_first_success_witness :
    probeHosts
        (fun h =>
          if h = "unix:///var/run/docker.sock" then
            { newErr := none, pingErr := some (GoErr.mk "connection refused") }
          else { newErr := none, pingErr := none })
        ["unix:///var/run/docker.sock",
         "unix:///home/user/.docker/run/docker.sock", "tcp://never-tried"] =
      (["unix:///var/run/docker.sock"].flatMap
          (failEvents fun h =>
            if h = "unix:///var/run/docker.sock" then
              { newErr := none,
                pingErr := some (GoErr.mk "connection refused") }
            else { newErr := none, pingErr := none }) ++
        [ProbeEvent.attempted "unix:///home/user/.docker/run/docker.sock"],
       .ok { client := { host := "unix:///home/user/.docker/run/docker.sock" } }) :=
  probe_first_success
    (fun h =>
      if h = "unix:///var/run/docker.sock" then
        { newErr := none, pingErr := some (GoErr.mk "connection refused") }
      else { newErr := none, pingErr := none })
    ["unix:///var/run/docker.sock"]
    "unix:///home/user/.docker/run/docker.sock" ["tcp://never-tried"]
    (by decide) (by decide) (by decide)

/-- C6 counterexample: on a concrete all-successful run, the trace span (the
span that carries the persisted attribute) is opened, and the attribute set,
strictly before the docker runtime check — so the runtime verification does
not happen before that span is opened, refuting the claimed order of step 1
and step 2. -/
theorem span_opened_before_docker_check :
    (UninstallCmd.run { Persisted := true } DefaultProvider envAllOk).1.indexOf
        (UAction.spanStart "local uninstall") <
      (UninstallCmd.run { Persisted := true } DefaultProvider
        envAllOk).1.indexOf UAction.dockerChecked ∧
    (UninstallCmd.run { Persisted := true } DefaultProvider envAllOk).1.indexOf
        (UAction.spanSetAttr "persisted" true) <
      (UninstallCmd.run { Persisted := true } DefaultProvider
        envAllOk).1.indexOf UAction.dockerChecked ∧
    ¬ ((UninstallCmd.run { Persisted := true } DefaultProvider
          envAllOk).1.indexOf UAction.dockerChecked <
        (UninstallCmd.run { Persisted := true } DefaultProvider
          envAllOk).1.indexOf (UAction.spanStart "local uninstall")) := by
  decide

/-- C6 (amended): every run opens the trace span and sets its persisted
attribute first and only then performs the runtime verification; a
runtime-verification failure returns the wrapped docker-status error at once,
the trace ending with the span close and containing no cluster lookup,
existence check, manager construction, or deletion; when the verification
succeeds, the telemetry wrap of the uninstall operation is entered
immediately after it. -/
theorem uninstall_ordering (u : UninstallCmd) (p : Provider)
    (env : UninstallEnv) :
    (u.run p env).1.take 3 =
      [UAction.spanStart "local uninstall",
       UAction.spanSetAttr "persisted" u.Persisted, UAction.dockerChecked] ∧
    (∀ e, env.dockerInstalledErr = some e →
      u.run p env =
        ([UAction.spanStart "local uninstall",
          UAction.spanSetAttr "persisted" u.Persisted, UAction.dockerChecked,
          UAction.spanEnd],
         some (GoErr.wrap "unable to determine docker installation status"
           e))) ∧
    (env.dockerInstalledErr = none →
      (u.run p env).1.take 4 =
        [UAction.spanStart "local uninstall",
         UAction.spanSetAttr "persisted" u.Persisted, UAction.dockerChecked,
         UAction.wrapStart "uninstall"]) := by
  cases hd : env.dockerInstalledErr <;> simp [UninstallCmd.run, hd]

/-- C6 witness: at a concrete input whose docker check fails, the run stops
with the wrapped docker-status error after exactly the span opening, the
attribute set, the docker check, and the span close. -/
theorem uninstall_ordering_witness :
    UninstallCmd.run { Persisted := true } DefaultProvider
        { envAllOk with
            dockerInstalledErr := some (GoErr.mk "docker not running") } =
      ([UAction.spanStart "local uninstall",
        UAction.spanSetAttr "persisted" true, UAction.dockerChecked,
        UAction.spanEnd],
       some (GoErr.wrap "unable to determine docker installation status"
         (GoErr.mk "docker not running"))) :=
  (uninstall_ordering { Persisted := true } DefaultProvider
    { envAllOk with
        dockerInstalledErr := some (GoErr.mk "docker not running") }).2.1
    (GoErr.mk "docker not running") rfl

/-- C7: the scanner yields one record per line with a nil error accessor — a
line classified by the structured parse, an unparsable line falling back to
the raw line as message with empty level; in particular, on the two-line
input of the plaintext line followed by the structured WARN line, the first
record is level empty with the raw line as message and the second is level
WARN with the structured message, the error accessor nil both times. -/
theorem javaLogScanner_records :
    (∀ (l : String) (rest : List String),
      (NewLogScanner (l :: rest)).scan.1 = true ∧
      (NewLogScanner (l :: rest)).scan.2.Line = parseJavaLogLine l ∧
      (NewLogScanner (l :: rest)).scan.2.err = none) ∧
    (∀ l : String, parseJson l = none →
      parseJavaLogLine l = { Level := "", Message := l }) ∧
    (NewLogScanner [logLine1, logLine2]).scan.1 = true ∧
    (NewLogScanner [logLine1, logLine2]).scan.2.Line =
      { Level := "", Message := "nonjsonline" } ∧
    (NewLogScanner [logLine1, logLine2]).scan.2.err = none ∧
    (NewLogScanner [logLine1, logLine2]).scan.2.scan.1 = true ∧
    (NewLogScanner [logLine1, logLine2]).scan.2.scan.2.Line =
      { Level := "WARN",
        Message := "Waiting for database to become available..." } ∧
    (NewLogScanner [logLine1, logLine2]).scan.2.scan.2.err = none := by
  refine ⟨fun l rest => ⟨rfl, rfl, rfl⟩, fun l hfailed => ?_, rfl, by decide,
    rfl, rfl, by decide, rfl⟩
  simp [parseJavaLogLine, hfailed]

/-- C7 witness: the fallback clause applied at the concrete plaintext line. -/
theorem javaLogScanner_records_witness :
    parseJavaLogLine "nonjsonline" =
      { Level := "", Message := "nonjsonline" } :=
  javaLogScanner_records.2.1 "nonjsonline" rfl

/-- C8: the default profile holds the documented fixed values (cluster
airbyte-abctl, context kind-airbyte-abctl, kubeconfig at the well-known user
path) and the test profile holds cluster and context test-airbyte-abctl with
a kubeconfig path that differs from the default path while its final
component equals the canonical kubeconfig file name. -/
theorem provider_profile_values :
    DefaultProvider.Name = Kind ∧
    DefaultProvider.ClusterName = "airbyte-abctl" ∧
    DefaultProvider.Context = "kind-airbyte-abctl" ∧
    DefaultProvider.Kubeconfig = Kubeconfig ∧
    TestProvider.Name = Test ∧
    TestProvider.ClusterName = "test-airbyte-abctl" ∧
    TestProvider.Context = "test-airbyte-abctl" ∧
    TestProvider.Kubeconfig ≠ DefaultProvider.Kubeconfig ∧
    TestProvider.Kubeconfig ≠ Kubeconfig ∧
    filepathBase TestProvider.Kubeconfig = FileKubeconfig := by
  decide

/-- C9: a successful `Provider.Cluster` call on a profile whose kubeconfig
directory does not yet exist returns a non-nil handle with no error and
leaves the kubeconfig directory present in the filesystem. -/
theorem provider_cluster_creates_kubeconfig_dir (p : Provider)
    (fs : List String)
    (hnot : dirExists fs (filepathDir p.Kubeconfig) = false) :
    (p.Cluster fs true).1.1.isSome = true ∧
    (p.Cluster fs true).1.2 = none ∧
    dirExists (p.Cluster fs true).2 (filepathDir p.Kubeconfig) = true := by
  simp [Provider.Cluster, dirExists]

/-- C9 witness: the test profile on an empty filesystem — the kubeconfig
directory is initially absent and present after the successful call, the
handle non-nil. -/
theorem provider_cluster_creates_kubeconfig_dir_witness :
    dirExists [] (filepathDir TestProvider.Kubeconfig) = false ∧
    ((TestProvider.Cluster [] true).1.1.isSome = true ∧
     (TestProvider.Cluster [] true).1.2 = none ∧
     dirExists (TestProvider.Cluster [] true).2
       (filepathDir TestProvider.Kubeconfig) = true) :=
  ⟨by decide,
   provider_cluster_creates_kubeconfig_dir TestProvider [] (by decide)⟩

/-- C10: the candidate list puts a usable current-context endpoint first,
followed by the fixed platform fallbacks — on darwin the standard unix
socket then the user-home desktop socket, on windows the single named pipe,
and on any other platform the standard unix socket then the user-home
desktop-cli socket; without a usable context endpoint the list is the
fallbacks alone. -/
theorem candidate_list_order (h userHome goos : String)
    (entries : List CtxEntry) (hne : h ≠ "") (hgoos1 : goos ≠ "darwin")
    (hgoos2 : goos ≠ "windows") :
    potentialHosts (some ({ host := h } :: entries)) "darwin" userHome =
      [h, "unix:///var/run/docker.sock",
       "unix://" ++ userHome ++ "/.docker/run/docker.sock"] ∧
    potentialHosts (some ({ host := h } :: entries)) "windows" userHome =
      [h, "npipe:////./pipe/docker_engine"] ∧
    potentialHosts (some ({ host := h } :: entries)) goos userHome =
      [h, "unix:///var/run/docker.sock",
       "unix://" ++ userHome ++ "/.docker/desktop/docker-cli.sock"] ∧
    potentialHosts none "darwin" userHome =
      ["unix:///var/run/docker.sock",
       "unix://" ++ userHome ++ "/.docker/run/docker.sock"] ∧
    potentialHosts none "windows" userHome =
      ["npipe:////./pipe/docker_engine"] ∧
    potentialHosts none goos userHome =
      ["unix:///var/run/docker.sock",
       "unix://" ++ userHome ++ "/.docker/desktop/docker-cli.sock"] := by
  simp [potentialHosts, contextHost, hne, hgoos1, hgoos2]

/-- C10 witness: on a linux run with a usable context endpoint, the list is
the context endpoint followed by the two non-darwin fallbacks. -/
theorem candidate_list_order_witness :
    potentialHosts (some [{ host := "unix:///ctx/docker.sock" }]) "linux"
        "/home/user" =
      ["unix:///ctx/docker.sock", "unix:///var/run/docker.sock",
       "unix://" ++ "/home/user" ++ "/.docker/desktop/docker-cli.sock"] :=
  (candidate_list_order "unix:///ctx/docker.sock" "/home/user" "linux" []
    (by decide) (by decide) (by decide)).2.2.1
